import Mathlib

/-!
Verification of the MIDIGenerator repository (src/midi_generator/src/main.rs).

The program builds a random Standard MIDI File in memory: a header chunk
(`MThd`), variable-length delta-times, channel-voice and meta events, and
track chunks (`MTrk`).  Every random draw in the source is a call
`Uniform::from(a..b).sample(&mut rng)` (returning a value in `[a, b)`) or a
`WeightedIndex` sample (returning an index into the weight list).  The
shallow embedding below makes those draws explicit function arguments, in
the order the source draws them; theorems hypothesise each draw lies in its
sampled range.  Rust `panic!`/`todo!` is modelled by `Except.error` carrying
the panic message (or by `Option.none` where noted).  Bytes are `Nat`s; all
values pushed by the source are below 256, so no truncation is modelled.
-/

set_option autoImplicit false

namespace MIDIGenerator

/-- Channel-voice event kinds, from `enum MIDIEvent` in the source. -/
inductive MIDIEvent where
  | NoteOff
  | NoteOn
  | PolyphonicPressure
  | Controller
  | ProgramChange
  | ChannelPressure
  | PitchBend
  deriving DecidableEq, Repr

/-- Meta event kinds, from `enum MetaEvent` in the source. -/
inductive MetaEvent where
  | Text
  | SequenceORTrackName
  | InstrumentName
  | Lyric
  | ProgramName
  | MIDIChannelPrefix
  | MIDIPort
  | EndOfTrack
  | Marker
  | CuePoint
  | Tempo
  | TimeSignature
  | KeySignature
  deriving DecidableEq, Repr

/-- The `MThd` header chunk struct from the source.  `identifier` is the
four ASCII bytes, the numeric fields are the struct's `u32`/`u16` values
(all far below their type bounds, so `Nat` is faithful). -/
structure MThd where
  identifier : List Nat
  chunklen : Nat
  format : Nat
  ntracks : Nat
  tickdiv : Nat
  deriving DecidableEq, Repr

/-- The `ntrk` match inside `MThd::new`: format 0 takes one track, formats
1 and 2 use the freshly drawn sample (`Uniform::from(2..26)` resp.
`Uniform::from(1..26)` in the source), any other format hits the panic
arm. -/
def MThd.ntracksFor (fmt ntrkSample : Nat) : Except String Nat :=
  match fmt with
  | 0 => Except.ok 1
  | 1 => Except.ok ntrkSample
  | 2 => Except.ok ntrkSample
  | _ => Except.error "Error found when generating MThd chunk. Invalid ntracks"

/-- The fps match inside `MThd::new`: the `Uniform::from(0..4)` draw picks
one of the four SMPTE codes, anything else hits the panic arm. -/
def MThd.fpsByte (fpsSample : Nat) : Except String Nat :=
  match fpsSample with
  | 0 => Except.ok 0xE8
  | 1 => Except.ok 0xE7
  | 2 => Except.ok 0xE3
  | 3 => Except.ok 0xE2
  | _ => Except.error "Error found when generating MThd chunk. Invalid fps in tickdiv."

/-- The sub-frame-resolution match inside `MThd::new`: the
`Uniform::from(0..5)` draw picks one of the five typical values, anything
else hits the panic arm. -/
def MThd.subframeByte (subframeSample : Nat) : Except String Nat :=
  match subframeSample with
  | 0 => Except.ok 4
  | 1 => Except.ok 8
  | 2 => Except.ok 10
  | 3 => Except.ok 80
  | 4 => Except.ok 100
  | _ => Except.error "Error found when generating MThd chunk. Invalid sub-frame resolution in tickdiv."

/-- The `tckdv_extra_bits` match inside `MThd::new`: metrical timing
(timecode draw 0) yields the constant 96; timecode timing (draw 1) packs
the fps byte into bits 8–15 and ors in the sub-frame byte; any other draw
hits the panic arm. -/
def MThd.tickdivExtraBits (timecode fpsSample subframeSample : Nat) : Except String Nat :=
  match timecode with
  | 0 => Except.ok 96
  | 1 =>
    match MThd.fpsByte fpsSample with
    | Except.error e => Except.error e
    | Except.ok temp =>
      match MThd.subframeByte subframeSample with
      | Except.error e => Except.error e
      | Except.ok sub => Except.ok ((temp <<< 8) ||| sub)
  | _ => Except.error "Error found when generating MThd chunk. Invalid timecode in tickdiv."

/-- `MThd::new` from the source.  The arguments are the five random draws
in program order: the format draw (`Uniform::from(0..3)`), the track-count
draw, the timecode draw (`Uniform::from(0..2)`), the fps draw and the
sub-frame draw.  The result combines `timecode << 15` with the extra bits,
exactly as the source does with `tckdv = tckdv | tckdv_extra_bits`. -/
def MThd.new (fmt ntrkSample timecode fpsSample subframeSample : Nat) : Except String MThd :=
  match MThd.ntracksFor fmt ntrkSample with
  | Except.error e => Except.error e
  | Except.ok ntrk =>
    match MThd.tickdivExtraBits timecode fpsSample subframeSample with
    | Except.error e => Except.error e
    | Except.ok extra =>
      Except.ok
        { identifier := [77, 84, 104, 100]
          chunklen := 6
          format := fmt
          ntracks := ntrk
          tickdiv := (timecode <<< 15) ||| extra }

theorem ntracksFor_ok_of_lt (fmt nt : Nat) (h : fmt < 3) :
    ∃ v, MThd.ntracksFor fmt nt = Except.ok v := by
  interval_cases fmt
  · exact ⟨1, rfl⟩
  · exact ⟨nt, rfl⟩
  · exact ⟨nt, rfl⟩

theorem tickdivExtraBits_ok_of_lt (tc fps sub : Nat) (htc : tc < 2) (hfps : fps < 4)
    (hsub : sub < 5) : ∃ v, MThd.tickdivExtraBits tc fps sub = Except.ok v := by
  interval_cases tc
  · exact ⟨96, rfl⟩
  · interval_cases fps <;> interval_cases sub <;> exact ⟨_, rfl⟩

/-- C10: `MThd::new` cannot fail: with every draw inside its sampled range
(format in `[0,3)`, timecode in `[0,2)`, fps index in `[0,4)`, sub-frame
index in `[0,5)`), none of the four panic arms is reached and the function
returns a header chunk. -/
theorem mthd_new_total (fmt nt tc fps sub : Nat) (hfmt : fmt < 3) (htc : tc < 2)
    (hfps : fps < 4) (hsub : sub < 5) :
    ∃ hdr, MThd.new fmt nt tc fps sub = Except.ok hdr := by
  obtain ⟨v, hv⟩ := ntracksFor_ok_of_lt fmt nt hfmt
  obtain ⟨w, hw⟩ := tickdivExtraBits_ok_of_lt tc fps sub htc hfps hsub
  exact ⟨_, by rw [MThd.new, hv, hw]⟩

/-- Witness for C10 at the concrete draws (0, 7, 0, 0, 0). -/
theorem mthd_new_total_witness :
    ∃ hdr, MThd.new 0 7 0 0 0 = Except.ok hdr :=
  mthd_new_total 0 7 0 0 0 (by decide) (by decide) (by decide) (by decide)

theorem mthd_new_ok_inv (fmt nt tc fps sub : Nat) (hdr : MThd)
    (h : MThd.new fmt nt tc fps sub = Except.ok hdr) :
    ∃ extra, MThd.tickdivExtraBits tc fps sub = Except.ok extra ∧
      hdr.identifier = [77, 84, 104, 100] ∧ hdr.chunklen = 6 ∧ hdr.format = fmt ∧
      MThd.ntracksFor fmt nt = Except.ok hdr.ntracks ∧
      hdr.tickdiv = (tc <<< 15) ||| extra := by
  rw [MThd.new] at h
  cases hnt : MThd.ntracksFor fmt nt with
  | error e => rw [hnt] at h; exact absurd h (by simp)
  | ok ntrk =>
    rw [hnt] at h
    cases hex : MThd.tickdivExtraBits tc fps sub with
    | error e => rw [hex] at h; exact absurd h (by simp)
    | ok extra =>
      rw [hex] at h
      cases h
      exact ⟨extra, rfl, rfl, rfl, rfl, rfl, rfl⟩

theorem ntracksFor_ok_inv (fmt nt v : Nat) (h : MThd.ntracksFor fmt nt = Except.ok v) :
    (fmt = 0 ∧ v = 1) ∨ (fmt = 1 ∧ v = nt) ∨ (fmt = 2 ∧ v = nt) := by
  match fmt, h with
  | 0, h => exact Or.inl ⟨rfl, by cases h; rfl⟩
  | 1, h => exact Or.inr (Or.inl ⟨rfl, by cases h; rfl⟩)
  | 2, h => exact Or.inr (Or.inr ⟨rfl, by cases h; rfl⟩)

/-- C4: every header chunk returned by `MThd::new` has identifier "MThd"
(bytes 77, 84, 104, 100), chunk length 6, a format among 0, 1, 2, and a
track count obeying the per-format rule: format 0 gives exactly 1 track,
format 1 a count in `[2, 26)`, format 2 a count in `[1, 26)`.  The two
hypotheses on `nt` state the range of the `Uniform::from(2..26)` resp.
`Uniform::from(1..26)` draw used in the corresponding match arm. -/
theorem mthd_new_header_fields (fmt nt tc fps sub : Nat) (hdr : MThd)
    (h1 : fmt = 1 → 2 ≤ nt ∧ nt < 26) (h2 : fmt = 2 → 1 ≤ nt ∧ nt < 26)
    (hret : MThd.new fmt nt tc fps sub = Except.ok hdr) :
    hdr.identifier = [77, 84, 104, 100] ∧ hdr.chunklen = 6 ∧
      (hdr.format = 0 ∨ hdr.format = 1 ∨ hdr.format = 2) ∧
      (hdr.format = 0 → hdr.ntracks = 1) ∧
      (hdr.format = 1 → 2 ≤ hdr.ntracks ∧ hdr.ntracks < 26) ∧
      (hdr.format = 2 → 1 ≤ hdr.ntracks ∧ hdr.ntracks < 26) := by
  obtain ⟨extra, -, hid, hlen, hfmt, hnt, -⟩ := mthd_new_ok_inv fmt nt tc fps sub hdr hret
  rcases ntracksFor_ok_inv fmt nt hdr.ntracks hnt with ⟨hf, hv⟩ | ⟨hf, hv⟩ | ⟨hf, hv⟩
  · rw [hfmt, hf]
    exact ⟨hid, hlen, Or.inl rfl, fun _ => hv, fun hc => by omega, fun hc => by omega⟩
  · rw [hfmt, hf]
    have hr := h1 hf
    exact ⟨hid, hlen, Or.inr (Or.inl rfl), fun hc => by omega, fun _ => by omega,
      fun hc => by omega⟩
  · rw [hfmt, hf]
    have hr := h2 hf
    exact ⟨hid, hlen, Or.inr (Or.inr rfl), fun hc => by omega, fun hc => by omega,
      fun _ => by omega⟩

/-- Witness for C4 at format 1 with draws (1, 5, 0, 0, 0). -/
theorem mthd_new_header_fields_witness :
    (MThd.mk [77, 84, 104, 100] 6 1 5 96).identifier = [77, 84, 104, 100] ∧
      (MThd.mk [77, 84, 104, 100] 6 1 5 96).chunklen = 6 ∧
      ((MThd.mk [77, 84, 104, 100] 6 1 5 96).format = 0 ∨
        (MThd.mk [77, 84, 104, 100] 6 1 5 96).format = 1 ∨
        (MThd.mk [77, 84, 104, 100] 6 1 5 96).format = 2) ∧
      ((MThd.mk [77, 84, 104, 100] 6 1 5 96).format = 0 →
        (MThd.mk [77, 84, 104, 100] 6 1 5 96).ntracks = 1) ∧
      ((MThd.mk [77, 84, 104, 100] 6 1 5 96).format = 1 →
        2 ≤ (MThd.mk [77, 84, 104, 100] 6 1 5 96).ntracks ∧
          (MThd.mk [77, 84, 104, 100] 6 1 5 96).ntracks < 26) ∧
      ((MThd.mk [77, 84, 104, 100] 6 1 5 96).format = 2 →
        1 ≤ (MThd.mk [77, 84, 104, 100] 6 1 5 96).ntracks ∧
          (MThd.mk [77, 84, 104, 100] 6 1 5 96).ntracks < 26) :=
  mthd_new_header_fields 1 5 0 0 0 (MThd.mk [77, 84, 104, 100] 6 1 5 96)
    (fun _ => by decide) (fun h => by cases h) rfl

/-- C5: the tick-division field of every header chunk returned by
`MThd::new`: when bit 15 is clear the lower 15 bits are 96 (metrical
timing), and when bit 15 is set the upper byte is one of the four SMPTE
codes 0xE8, 0xE7, 0xE3, 0xE2 and the lower byte one of 4, 8, 10, 80, 100. -/
theorem mthd_new_tickdiv_fields (fmt nt tc fps sub : Nat) (hdr : MThd)
    (hret : MThd.new fmt nt tc fps sub = Except.ok hdr) :
    (hdr.tickdiv.testBit 15 = false → hdr.tickdiv &&& 0x7FFF = 96) ∧
      (hdr.tickdiv.testBit 15 = true →
        (hdr.tickdiv >>> 8 = 0xE8 ∨ hdr.tickdiv >>> 8 = 0xE7 ∨
          hdr.tickdiv >>> 8 = 0xE3 ∨ hdr.tickdiv >>> 8 = 0xE2) ∧
        (hdr.tickdiv &&& 0xFF = 4 ∨ hdr.tickdiv &&& 0xFF = 8 ∨ hdr.tickdiv &&& 0xFF = 10 ∨
          hdr.tickdiv &&& 0xFF = 80 ∨ hdr.tickdiv &&& 0xFF = 100)) := by
  obtain ⟨extra, hex, -, -, -, -, htd⟩ := mthd_new_ok_inv fmt nt tc fps sub hdr hret
  rw [htd]
  match tc, hex with
  | 0, hex =>
    rw [MThd.tickdivExtraBits] at hex
    cases hex
    decide
  | 1, hex =>
    rw [MThd.tickdivExtraBits] at hex
    match hf : MThd.fpsByte fps with
    | Except.error e => rw [hf] at hex; exact absurd hex (by simp)
    | Except.ok temp =>
      rw [hf] at hex
      match hs : MThd.subframeByte sub with
      | Except.error e => rw [hs] at hex; exact absurd hex (by simp)
      | Except.ok sb =>
        rw [hs] at hex
        cases hex
        have htemp : temp = 0xE8 ∨ temp = 0xE7 ∨ temp = 0xE3 ∨ temp = 0xE2 := by
          match fps, hf with
          | 0, hf => cases hf; exact Or.inl rfl
          | 1, hf => cases hf; exact Or.inr (Or.inl rfl)
          | 2, hf => cases hf; exact Or.inr (Or.inr (Or.inl rfl))
          | 3, hf => cases hf; exact Or.inr (Or.inr (Or.inr rfl))
        have hsb : sb = 4 ∨ sb = 8 ∨ sb = 10 ∨ sb = 80 ∨ sb = 100 := by
          match sub, hs with
          | 0, hs => cases hs; exact Or.inl rfl
          | 1, hs => cases hs; exact Or.inr (Or.inl rfl)
          | 2, hs => cases hs; exact Or.inr (Or.inr (Or.inl rfl))
          | 3, hs => cases hs; exact Or.inr (Or.inr (Or.inr (Or.inl rfl)))
          | 4, hs => cases hs; exact Or.inr (Or.inr (Or.inr (Or.inr rfl)))
        rcases htemp with h | h | h | h <;> rcases hsb with h' | h' | h' | h' | h' <;>
          subst h <;> subst h' <;> decide

/-- Witness for C5 at the concrete draws (0, 7, 1, 0, 0). -/
theorem mthd_new_tickdiv_fields_witness :
    ((MThd.mk [77, 84, 104, 100] 6 0 1 0xE804).tickdiv.testBit 15 = false →
      (MThd.mk [77, 84, 104, 100] 6 0 1 0xE804).tickdiv &&& 0x7FFF = 96) ∧
      ((MThd.mk [77, 84, 104, 100] 6 0 1 0xE804).tickdiv.testBit 15 = true →
        ((MThd.mk [77, 84, 104, 100] 6 0 1 0xE804).tickdiv >>> 8 = 0xE8 ∨
          (MThd.mk [77, 84, 104, 100] 6 0 1 0xE804).tickdiv >>> 8 = 0xE7 ∨
          (MThd.mk [77, 84, 104, 100] 6 0 1 0xE804).tickdiv >>> 8 = 0xE3 ∨
          (MThd.mk [77, 84, 104, 100] 6 0 1 0xE804).tickdiv >>> 8 = 0xE2) ∧
        ((MThd.mk [77, 84, 104, 100] 6 0 1 0xE804).tickdiv &&& 0xFF = 4 ∨
          (MThd.mk [77, 84, 104, 100] 6 0 1 0xE804).tickdiv &&& 0xFF = 8 ∨
          (MThd.mk [77, 84, 104, 100] 6 0 1 0xE804).tickdiv &&& 0xFF = 10 ∨
          (MThd.mk [77, 84, 104, 100] 6 0 1 0xE804).tickdiv &&& 0xFF = 80 ∨
          (MThd.mk [77, 84, 104, 100] 6 0 1 0xE804).tickdiv &&& 0xFF = 100)) :=
  mthd_new_tickdiv_fields 0 7 1 0 0 (MThd.mk [77, 84, 104, 100] 6 0 1 0xE804) rfl

/-- The `DeltaTime` wrapper struct from the source: a byte vector. -/
structure DeltaTime where
  data : List Nat
  deriving DecidableEq, Repr

/-- The `choices` array in `create_delta_time`. -/
def choices : List Nat := [1, 2, 3, 4]

/-- The `weights` array in `create_delta_time` (only its length matters for
the control flow: `WeightedIndex` over four weights yields an index in
`[0, 4)`). -/
def weights : List Nat := [80, 12, 6, 2]

/-- `create_delta_time` from the source.  `idx` is the `WeightedIndex`
draw indexing into `choices` (Rust indexing out of bounds panics, modelled
by `none`); `draw i` is the i-th `Uniform::from(0..128)` draw of the chosen
match arm.  Continuation bytes get the high bit forced with `| 0x80`; the
unreachable `_` arm of the `match nbytes` panic is also `none`. -/
def create_delta_time (idx : Nat) (draw : Nat → Nat) : Option DeltaTime :=
  match choices.get? idx with
  | none => none
  | some nbytes =>
    match nbytes with
    | 1 => some ⟨[draw 0]⟩
    | 2 => some ⟨[draw 0 ||| 0x80, draw 1]⟩
    | 3 => some ⟨[draw 0 ||| 0x80, draw 1 ||| 0x80, draw 2]⟩
    | 4 => some ⟨[draw 0 ||| 0x80, draw 1 ||| 0x80, draw 2 ||| 0x80, draw 3]⟩
    | _ => none

theorem testBit7_or_128 (x : Nat) : (x ||| 0x80).testBit 7 = true := by
  rw [Nat.testBit_or]
  have h : Nat.testBit 0x80 7 = true := by decide
  rw [h, Bool.or_true]

theorem testBit7_of_lt_128 (x : Nat) (h : x < 128) : x.testBit 7 = false := by
  have h7 : (128 : Nat) = 2 ^ 7 := by norm_num
  rw [h7] at h
  exact Nat.testBit_lt_two_pow h

/-- C6: every delta-time returned by `create_delta_time` has 1 to 4 bytes,
every byte except the last has bit 7 set, and the last byte has bit 7
clear.  The hypotheses state the draws' ranges: the `WeightedIndex` over
the four weights yields an index below 4, and every byte draw is a
`Uniform::from(0..128)` sample. -/
theorem create_delta_time_vlq_shape (idx : Nat) (draw : Nat → Nat) (hidx : idx < 4)
    (hdraw : ∀ i, draw i < 128) :
    ∃ dt, create_delta_time idx draw = some dt ∧
      1 ≤ dt.data.length ∧ dt.data.length ≤ 4 ∧
      (∀ b ∈ dt.data.dropLast, b.testBit 7 = true) ∧
      (∀ b, dt.data.getLast? = some b → b.testBit 7 = false) := by
  interval_cases idx
  · refine ⟨⟨[draw 0]⟩, rfl, by simp, by simp, ?_, ?_⟩
    · intro b hb
      simp at hb
    · intro b hb
      simp at hb
      rw [← hb]
      exact testBit7_of_lt_128 _ (hdraw 0)
  · refine ⟨⟨[draw 0 ||| 0x80, draw 1]⟩, rfl, by simp, by simp, ?_, ?_⟩
    · intro b hb
      simp at hb
      rw [hb]
      exact testBit7_or_128 _
    · intro b hb
      simp at hb
      rw [← hb]
      exact testBit7_of_lt_128 _ (hdraw 1)
  · refine ⟨⟨[draw 0 ||| 0x80, draw 1 ||| 0x80, draw 2]⟩, rfl, by simp, by simp, ?_, ?_⟩
    · intro b hb
      simp at hb
      rcases hb with hb | hb <;> rw [hb] <;> exact testBit7_or_128 _
    · intro b hb
      simp at hb
      rw [← hb]
      exact testBit7_of_lt_128 _ (hdraw 2)
  · refine ⟨⟨[draw 0 ||| 0x80, draw 1 ||| 0x80, draw 2 ||| 0x80, draw 3]⟩, rfl,
      by simp, by simp, ?_, ?_⟩
    · intro b hb
      simp at hb
      rcases hb with hb | hb | hb <;> rw [hb] <;> exact testBit7_or_128 _
    · intro b hb
      simp at hb
      rw [← hb]
      exact testBit7_of_lt_128 _ (hdraw 3)

/-- Witness for C6 at index 3 and the constant draw 5. -/
theorem create_delta_time_vlq_shape_witness :
    ∃ dt, create_delta_time 3 (fun _ => 5) = some dt ∧
      1 ≤ dt.data.length ∧ dt.data.length ≤ 4 ∧
      (∀ b ∈ dt.data.dropLast, b.testBit 7 = true) ∧
      (∀ b, dt.data.getLast? = some b → b.testBit 7 = false) :=
  create_delta_time_vlq_shape 3 (fun _ => 5) (by decide) (fun i => by norm_num)

/-- The `Event` wrapper struct from the source: a byte vector. -/
structure Event where
  data : List Nat
  deriving DecidableEq, Repr

/-- `Event::new_midi_event` from the source.  `channel` is the
`Uniform::from(0..16)` draw ored into the status byte; `d1` and `d2` are
the subsequent `Uniform::from(0..128)` draws of the chosen arm (note and
velocity, controller and value, etc.; only `d1` is drawn for ProgramChange
and ChannelPressure). -/
def Event.new_midi_event (event : MIDIEvent) (channel d1 d2 : Nat) : Event :=
  match event with
  | MIDIEvent.NoteOff => ⟨[0x80 ||| channel, d1, d2]⟩
  | MIDIEvent.NoteOn => ⟨[0x90 ||| channel, d1, d2]⟩
  | MIDIEvent.PolyphonicPressure => ⟨[0xA0 ||| channel, d1, d2]⟩
  | MIDIEvent.Controller => ⟨[0xB0 ||| channel, d1, d2]⟩
  | MIDIEvent.ProgramChange => ⟨[0xC0 ||| channel, d1]⟩
  | MIDIEvent.ChannelPressure => ⟨[0xD0 ||| channel, d1]⟩
  | MIDIEvent.PitchBend => ⟨[0xE0 ||| channel, d1, d2]⟩

/-- The family base value of each channel-voice status byte, as the spec
states it; the source writes these literals in the corresponding arms of
`new_midi_event`. -/
def MIDIEvent.familyBase : MIDIEvent → Nat
  | MIDIEvent.NoteOff => 0x80
  | MIDIEvent.NoteOn => 0x90
  | MIDIEvent.PolyphonicPressure => 0xA0
  | MIDIEvent.Controller => 0xB0
  | MIDIEvent.ProgramChange => 0xC0
  | MIDIEvent.ChannelPressure => 0xD0
  | MIDIEvent.PitchBend => 0xE0

/-- The number of data bytes each channel-voice kind carries: one for
ProgramChange and ChannelPressure, two for every other kind. -/
def MIDIEvent.dataByteCount : MIDIEvent → Nat
  | MIDIEvent.ProgramChange => 1
  | MIDIEvent.ChannelPressure => 1
  | _ => 2

/-- C8: every channel-voice event returned by `Event::new_midi_event` is
the kind's family base value ored with the sampled channel, followed by
exactly `dataByteCount` data bytes, each below 128. -/
theorem new_midi_event_layout (kind : MIDIEvent) (ch d1 d2 : Nat) (_hch : ch < 16)
    (h1 : d1 < 128) (h2 : d2 < 128) :
    ∃ ds, (Event.new_midi_event kind ch d1 d2).data = (kind.familyBase ||| ch) :: ds ∧
      ds.length = kind.dataByteCount ∧ ∀ b ∈ ds, b < 128 := by
  cases kind <;>
    first
    | exact ⟨[d1, d2], rfl, rfl, by
        intro b hb
        simp at hb
        rcases hb with rfl | rfl <;> assumption⟩
    | exact ⟨[d1], rfl, rfl, by
        intro b hb
        simp at hb
        rw [hb]
        exact h1⟩

/-- Witness for C8 at kind ProgramChange, channel 9, data bytes 60 and 64. -/
theorem new_midi_event_layout_witness :
    ∃ ds, (Event.new_midi_event MIDIEvent.ProgramChange 9 60 64).data =
        (MIDIEvent.ProgramChange.familyBase ||| 9) :: ds ∧
      ds.length = MIDIEvent.ProgramChange.dataByteCount ∧ ∀ b ∈ ds, b < 128 :=
  new_midi_event_layout MIDIEvent.ProgramChange 9 60 64 (by decide) (by decide) (by decide)

/-- `generate_random_characters` from the source: draws `n` bytes from
`Uniform::from(32..128)`; `draw i` is the i-th draw. -/
def generate_random_characters (n : Nat) (draw : Nat → Nat) : List Nat :=
  (List.range n).map draw

/-- The random draws `Event::new_meta_event` can make, one field per
sampled variable of the source, in the order drawn by the arm that uses
them: `length` is the `Uniform::from(1..50)` draw of the text-like arms
and `charDraw` the subsequent `Uniform::from(32..128)` draws inside
`generate_random_characters`; `ccByte` is the `Uniform::from(0..16)` draw
of the MIDIChannelPrefix arm; `ppByte` the `Uniform::from(0..128)` draw of
the MIDIPort arm; `tt_bytes` the `Uniform::from(100_000..5_000_000)` draw
of the Tempo arm; `nn`, `dd`, `cc` the TimeSignature draws; `sf` (an `i8`)
and `mi` the KeySignature draws. -/
structure MetaSamples where
  length : Nat
  charDraw : Nat → Nat
  ccByte : Nat
  ppByte : Nat
  tt_bytes : Nat
  nn : Nat
  dd : Nat
  cc : Nat
  sf : Int
  mi : Nat

/-- `Event::new_meta_event` from the source.  Every arm starts from the
pushed status byte `0xFF`; the Rust `sf as u8` two's-complement cast is
`(sf % 256).toNat`. -/
def Event.new_meta_event (event : MetaEvent) (s : MetaSamples) : Event :=
  match event with
  | MetaEvent.Text =>
    ⟨0xFF :: 0x01 :: s.length :: generate_random_characters s.length s.charDraw⟩
  | MetaEvent.SequenceORTrackName =>
    ⟨0xFF :: 0x03 :: s.length :: generate_random_characters s.length s.charDraw⟩
  | MetaEvent.InstrumentName =>
    ⟨0xFF :: 0x04 :: s.length :: generate_random_characters s.length s.charDraw⟩
  | MetaEvent.Lyric =>
    ⟨0xFF :: 0x05 :: s.length :: generate_random_characters s.length s.charDraw⟩
  | MetaEvent.ProgramName =>
    ⟨0xFF :: 0x08 :: s.length :: generate_random_characters s.length s.charDraw⟩
  | MetaEvent.MIDIChannelPrefix => ⟨[0xFF, 0x20, 0x01, s.ccByte]⟩
  | MetaEvent.MIDIPort => ⟨[0xFF, 0x21, 0x01, s.ppByte]⟩
  | MetaEvent.EndOfTrack => ⟨[0xFF, 0x2F, 0x00]⟩
  | MetaEvent.Marker =>
    ⟨0xFF :: 0x06 :: s.length :: generate_random_characters s.length s.charDraw⟩
  | MetaEvent.CuePoint =>
    ⟨0xFF :: 0x07 :: s.length :: generate_random_characters s.length s.charDraw⟩
  | MetaEvent.Tempo =>
    ⟨[0xFF, 0x51, 0x03, (s.tt_bytes &&& 0xFF0000) >>> 16, (s.tt_bytes &&& 0x00FF00) >>> 8,
      s.tt_bytes &&& 0x0000FF]⟩
  | MetaEvent.TimeSignature => ⟨[0xFF, 0x58, 0x04, s.nn, s.dd, s.cc, 0x08]⟩
  | MetaEvent.KeySignature => ⟨[0xFF, 0x59, 0x02, (s.sf % 256).toNat, s.mi]⟩

/-- The meta type code each kind pushes as its second byte. -/
def MetaEvent.typeCode : MetaEvent → Nat
  | MetaEvent.Text => 0x01
  | MetaEvent.SequenceORTrackName => 0x03
  | MetaEvent.InstrumentName => 0x04
  | MetaEvent.Lyric => 0x05
  | MetaEvent.ProgramName => 0x08
  | MetaEvent.MIDIChannelPrefix => 0x20
  | MetaEvent.MIDIPort => 0x21
  | MetaEvent.EndOfTrack => 0x2F
  | MetaEvent.Marker => 0x06
  | MetaEvent.CuePoint => 0x07
  | MetaEvent.Tempo => 0x51
  | MetaEvent.TimeSignature => 0x58
  | MetaEvent.KeySignature => 0x59

/-- The kinds whose payload is a random printable-ASCII text. -/
def MetaEvent.isTextLike : MetaEvent → Bool
  | MetaEvent.Text => true
  | MetaEvent.SequenceORTrackName => true
  | MetaEvent.InstrumentName => true
  | MetaEvent.Lyric => true
  | MetaEvent.ProgramName => true
  | MetaEvent.Marker => true
  | MetaEvent.CuePoint => true
  | _ => false

/-- C7: every meta event returned by `Event::new_meta_event` is the byte
0xFF, the kind's type code, a declared length equal to the exact number of
payload bytes that follow (0 for EndOfTrack), then the payload; for the
text-like kinds the declared length lies in `[1, 50)` and every payload
byte lies in the printable range `[32, 128)`.  The hypotheses state the
ranges of the text draws (`Uniform::from(1..50)` and
`Uniform::from(32..128)`). -/
theorem new_meta_event_layout (kind : MetaEvent) (s : MetaSamples)
    (hlen : 1 ≤ s.length ∧ s.length < 50)
    (hchars : ∀ i, 32 ≤ s.charDraw i ∧ s.charDraw i < 128) :
    ∃ payload, (Event.new_meta_event kind s).data =
        0xFF :: kind.typeCode :: payload.length :: payload ∧
      (kind.isTextLike = true →
        1 ≤ payload.length ∧ payload.length < 50 ∧ ∀ b ∈ payload, 32 ≤ b ∧ b < 128) := by
  have htext : ∀ code : Nat,
      (Event.mk (0xFF :: code :: s.length :: generate_random_characters s.length s.charDraw)).data =
          0xFF :: code :: (generate_random_characters s.length s.charDraw).length ::
            generate_random_characters s.length s.charDraw ∧
        (1 ≤ (generate_random_characters s.length s.charDraw).length ∧
          (generate_random_characters s.length s.charDraw).length < 50 ∧
          ∀ b ∈ generate_random_characters s.length s.charDraw, 32 ≤ b ∧ b < 128) := by
    intro code
    have hl : (generate_random_characters s.length s.charDraw).length = s.length := by
      simp [generate_random_characters]
    refine ⟨by rw [hl], ?_, ?_, ?_⟩
    · rw [hl]; exact hlen.1
    · rw [hl]; exact hlen.2
    intro b hb
    simp [generate_random_characters] at hb
    obtain ⟨i, -, rfl⟩ := hb
    exact hchars i
  cases kind
  · exact ⟨_, (htext 0x01).1, fun _ => (htext 0x01).2⟩
  · exact ⟨_, (htext 0x03).1, fun _ => (htext 0x03).2⟩
  · exact ⟨_, (htext 0x04).1, fun _ => (htext 0x04).2⟩
  · exact ⟨_, (htext 0x05).1, fun _ => (htext 0x05).2⟩
  · exact ⟨_, (htext 0x08).1, fun _ => (htext 0x08).2⟩
  · exact ⟨[s.ccByte], rfl, fun h => by cases h⟩
  · exact ⟨[s.ppByte], rfl, fun h => by cases h⟩
  · exact ⟨[], rfl, fun h => by cases h⟩
  · exact ⟨_, (htext 0x06).1, fun _ => (htext 0x06).2⟩
  · exact ⟨_, (htext 0x07).1, fun _ => (htext 0x07).2⟩
  · exact ⟨[(s.tt_bytes &&& 0xFF0000) >>> 16, (s.tt_bytes &&& 0x00FF00) >>> 8,
      s.tt_bytes &&& 0x0000FF], rfl, fun h => by cases h⟩
  · exact ⟨[s.nn, s.dd, s.cc, 0x08], rfl, fun h => by cases h⟩
  · exact ⟨[(s.sf % 256).toNat, s.mi], rfl, fun h => by cases h⟩

/-- Witness for C7 at kind Lyric with length 2 and constant char draw 65. -/
theorem new_meta_event_layout_witness :
    ∃ payload,
      (Event.new_meta_event MetaEvent.Lyric
          (MetaSamples.mk 2 (fun _ => 65) 0 0 100000 1 0 1 0 0)).data =
        0xFF :: MetaEvent.Lyric.typeCode :: payload.length :: payload ∧
      (MetaEvent.Lyric.isTextLike = true →
        1 ≤ payload.length ∧ payload.length < 50 ∧ ∀ b ∈ payload, 32 ≤ b ∧ b < 128) :=
  new_meta_event_layout MetaEvent.Lyric (MetaSamples.mk 2 (fun _ => 65) 0 0 100000 1 0 1 0 0)
    ⟨by norm_num, by norm_num⟩ (fun i => ⟨by norm_num, by norm_num⟩)

theorem and_shiftRight_distrib (x y k : Nat) : (x &&& y) >>> k = (x >>> k) &&& (y >>> k) := by
  apply Nat.eq_of_testBit_eq
  intro i
  simp [Nat.testBit_shiftRight, Nat.testBit_and]

theorem tempo_payload_decode (tt : Nat) (h : tt < 16777216) :
    ((tt &&& 0xFF0000) >>> 16) * 65536 + ((tt &&& 0x00FF00) >>> 8) * 256 +
      (tt &&& 0x0000FF) = tt := by
  have e1 : tt &&& 0x0000FF = tt % 256 := by
    rw [show (0x0000FF : Nat) = 2 ^ 8 - 1 by norm_num, Nat.and_pow_two_sub_one_eq_mod]
  have e2 : (tt &&& 0x00FF00) >>> 8 = tt / 256 % 256 := by
    rw [and_shiftRight_distrib, show (0x00FF00 : Nat) >>> 8 = 2 ^ 8 - 1 by decide,
      Nat.and_pow_two_sub_one_eq_mod, Nat.shiftRight_eq_div_pow]
  have e3 : (tt &&& 0xFF0000) >>> 16 = tt / 65536 % 256 := by
    rw [and_shiftRight_distrib, show (0xFF0000 : Nat) >>> 16 = 2 ^ 8 - 1 by decide,
      Nat.and_pow_two_sub_one_eq_mod, Nat.shiftRight_eq_div_pow]
  rw [e1, e2, e3]
  omega

/-- The `generate_mandatory_meta_events` helper from the source: builds
the Tempo, TimeSignature and KeySignature events, pushing their bytes
explicitly in that order; the arguments are its six random draws in
program order. -/
def Event.generate_mandatory_meta_events (tt nn dd cc : Nat) (sf : Int) (mi : Nat) :
    List Event :=
  [⟨[0xFF, 0x51, 0x03, (tt &&& 0xFF0000) >>> 16, (tt &&& 0x00FF00) >>> 8, tt &&& 0x0000FF]⟩,
   ⟨[0xFF, 0x58, 0x04, nn, dd, cc, 0x08]⟩,
   ⟨[0xFF, 0x59, 0x02, (sf % 256).toNat, mi]⟩]

/-- C9: every Tempo event — built by `Event::new_meta_event` with kind
Tempo, or as the first event of `Event::generate_mandatory_meta_events` —
starts with the bytes 0xFF, 0x51, 0x03 and carries exactly three payload
bytes which are the high, middle and low bytes of the sampled value, so
that their 24-bit big-endian decoding equals the sample, a value in
`[100000, 5000000)`. -/
theorem tempo_event_layout (s : MetaSamples) (tt nn dd cc : Nat) (sf : Int) (mi : Nat)
    (hs : 100000 ≤ s.tt_bytes ∧ s.tt_bytes < 5000000)
    (ht : 100000 ≤ tt ∧ tt < 5000000) :
    (∃ b0 b1 b2, (Event.new_meta_event MetaEvent.Tempo s).data =
        [0xFF, 0x51, 0x03, b0, b1, b2] ∧
        b0 * 65536 + b1 * 256 + b2 = s.tt_bytes ∧
        100000 ≤ b0 * 65536 + b1 * 256 + b2 ∧ b0 * 65536 + b1 * 256 + b2 < 5000000) ∧
      (∃ b0 b1 b2,
        (Event.generate_mandatory_meta_events tt nn dd cc sf mi).head? =
          some ⟨[0xFF, 0x51, 0x03, b0, b1, b2]⟩ ∧
        b0 * 65536 + b1 * 256 + b2 = tt ∧
        100000 ≤ b0 * 65536 + b1 * 256 + b2 ∧ b0 * 65536 + b1 * 256 + b2 < 5000000) := by
  have hd1 := tempo_payload_decode s.tt_bytes (by omega)
  have hd2 := tempo_payload_decode tt (by omega)
  constructor
  · exact ⟨_, _, _, rfl, hd1, by omega, by omega⟩
  · exact ⟨_, _, _, rfl, hd2, by omega, by omega⟩

/-- Witness for C9 at sampled tempo values 100000 and 4999999. -/
theorem tempo_event_layout_witness :
    (∃ b0 b1 b2,
      (Event.new_meta_event MetaEvent.Tempo
          (MetaSamples.mk 1 (fun _ => 65) 0 0 100000 1 0 1 0 0)).data =
        [0xFF, 0x51, 0x03, b0, b1, b2] ∧
      b0 * 65536 + b1 * 256 + b2 =
        (MetaSamples.mk 1 (fun _ => 65) 0 0 100000 1 0 1 0 0).tt_bytes ∧
      100000 ≤ b0 * 65536 + b1 * 256 + b2 ∧ b0 * 65536 + b1 * 256 + b2 < 5000000) ∧
      (∃ b0 b1 b2,
        (Event.generate_mandatory_meta_events 4999999 4 2 24 (-3) 1).head? =
          some ⟨[0xFF, 0x51, 0x03, b0, b1, b2]⟩ ∧
        b0 * 65536 + b1 * 256 + b2 = 4999999 ∧
        100000 ≤ b0 * 65536 + b1 * 256 + b2 ∧ b0 * 65536 + b1 * 256 + b2 < 5000000) :=
  tempo_event_layout (MetaSamples.mk 1 (fun _ => 65) 0 0 100000 1 0 1 0 0)
    4999999 4 2 24 (-3) 1 ⟨by norm_num, by norm_num⟩ ⟨by norm_num, by norm_num⟩

/-- The `MTrk` track chunk struct from the source. -/
structure MTrk where
  identifier : List Nat
  chunklen : Nat
  data : List (DeltaTime × Event)
  deriving DecidableEq, Repr

/-- `MTrk::new` from the source: it draws a format sample (bound to `fmt`
and never used) and returns a track with the "MTrk" identifier bytes,
`chunklen` 3 and an empty body. -/
def MTrk.new (_fmtSample : Nat) : MTrk :=
  { identifier := [77, 84, 114, 107], chunklen := 3, data := [] }

/-- `MTrk::new_global_tempo` from the source: despite its documentation it
generates no (delta-time, event) pairs and returns a track with the "MTrk"
identifier bytes, `chunklen` 3 and an empty body. -/
def MTrk.new_global_tempo : MTrk :=
  { identifier := [77, 84, 114, 107], chunklen := 3, data := [] }

/-- `MTrk::new_track_format_0` from the source: `todo!()`, which panics
with the message "not yet implemented". -/
def MTrk.new_track_format_0 : Except String MTrk :=
  Except.error "not yet implemented"

/-- `MTrk::new_track_format_1` from the source: `todo!()`. -/
def MTrk.new_track_format_1 : Except String MTrk :=
  Except.error "not yet implemented"

/-- `MTrk::new_track_format_2` from the source: `todo!()`. -/
def MTrk.new_track_format_2 : Except String MTrk :=
  Except.error "not yet implemented"

/-- The serialized track body: the concatenation of the delta-time bytes
and event bytes of each pair in order. -/
def serializedBody (body : List (DeltaTime × Event)) : List Nat :=
  body.foldr (fun p acc => p.1.data ++ p.2.data ++ acc) []

/-- Whether some event of the track body is a meta event of the given type
code (first byte 0xFF, second byte the code). -/
def MTrk.containsMetaType (t : MTrk) (code : Nat) : Bool :=
  t.data.any (fun p => p.2.data.take 2 == [0xFF, code])

/-- C1 (evidence of the violation): both `MTrk` constructors that return a
track give it an empty body and `chunklen` 3, so the body has no final
(delta-time, event) pair at all — in particular no terminal EndOfTrack —
and the chunklen field (3) differs from the serialized byte count of the
body (0). -/
theorem mtrk_constructor_body_empty :
    (∀ fmtSample : Nat,
      (MTrk.new fmtSample).data = [] ∧ (MTrk.new fmtSample).chunklen = 3) ∧
      MTrk.new_global_tempo.data = [] ∧ MTrk.new_global_tempo.chunklen = 3 ∧
      MTrk.new_global_tempo.chunklen ≠ (serializedBody MTrk.new_global_tempo.data).length :=
  ⟨fun _ => ⟨rfl, rfl⟩, rfl, rfl, by decide⟩

/-- C3 (evidence of the violation): the first track of every format-1 run
of `main` is the value of `MTrk::new_global_tempo`, whose body is empty:
it contains no Tempo (0x51), no TimeSignature (0x58) and no KeySignature
(0x59) meta event, contrary to the claim and to the constructor's own
documentation. -/
theorem global_tempo_track_lacks_mandatory_triad :
    MTrk.new_global_tempo.data = [] ∧
      MTrk.new_global_tempo.containsMetaType 0x51 = false ∧
      MTrk.new_global_tempo.containsMetaType 0x58 = false ∧
      MTrk.new_global_tempo.containsMetaType 0x59 = false :=
  ⟨rfl, rfl, rfl, rfl⟩

/-- The `for _ in a..b { tracks.push(build()) }` loops of `main`: `n` is
the number of remaining iterations, `acc` the tracks pushed so far; a
panicking constructor aborts the loop. -/
def pushTracks (build : Except String MTrk) : Nat → List MTrk → Except String (List MTrk)
  | 0, acc => Except.ok acc
  | Nat.succ n, acc =>
    match build with
    | Except.error e => Except.error e
    | Except.ok t => pushTracks build n (acc ++ [t])

/-- The per-format track generation of `main`: format 0 pushes one track
from `new_track_format_0`; format 1 pushes the global tempo track and then
`ntracks - 1` tracks from `new_track_format_1` (the loop over
`1..header.ntracks`); any other format pushes `ntracks` tracks from
`new_track_format_2` (the loop over `0..header.ntracks`). -/
def generateTracks (header : MThd) : Except String (List MTrk) :=
  if header.format = 0 then
    match MTrk.new_track_format_0 with
    | Except.error e => Except.error e
    | Except.ok t => Except.ok [t]
  else if header.format = 1 then
    pushTracks MTrk.new_track_format_1 (header.ntracks - 1) [MTrk.new_global_tempo]
  else
    pushTracks MTrk.new_track_format_2 header.ntracks []

/-- `main` from the source: build the header, then the tracks; any panic
aborts the run. -/
def main_run (fmt ntrkSample timecode fpsSample subframeSample : Nat) :
    Except String (List MTrk) :=
  match MThd.new fmt ntrkSample timecode fpsSample subframeSample with
  | Except.error e => Except.error e
  | Except.ok header => generateTracks header

theorem generateTracks_error (hdr : MThd)
    (h1 : hdr.format = 1 → 2 ≤ hdr.ntracks)
    (h2 : hdr.format ≠ 0 → hdr.format ≠ 1 → 1 ≤ hdr.ntracks) :
    generateTracks hdr = Except.error "not yet implemented" := by
  rw [generateTracks]
  by_cases hf0 : hdr.format = 0
  · rw [if_pos hf0]
    rfl
  · rw [if_neg hf0]
    by_cases hf1 : hdr.format = 1
    · rw [if_pos hf1]
      have hn := h1 hf1
      obtain ⟨k, hk⟩ : ∃ k, hdr.ntracks - 1 = k + 1 := ⟨hdr.ntracks - 2, by omega⟩
      rw [hk]
      rfl
    · rw [if_neg hf1]
      have hn := h2 hf0 hf1
      obtain ⟨k, hk⟩ : ∃ k, hdr.ntracks = k + 1 := ⟨hdr.ntracks - 1, by omega⟩
      rw [hk]
      rfl

theorem main_run_eq (fmt nt tc fps sub v w : Nat)
    (hv : MThd.ntracksFor fmt nt = Except.ok v)
    (hw : MThd.tickdivExtraBits tc fps sub = Except.ok w) :
    main_run fmt nt tc fps sub =
      generateTracks ⟨[77, 84, 104, 100], 6, fmt, v, (tc <<< 15) ||| w⟩ := by
  rw [main_run, MThd.new, hv, hw]

/-- C2: with every draw in its sampled range, `main` builds the header and
then reaches an unimplemented (`todo!`) track constructor whatever the
format: format 0 calls `new_track_format_0` directly, format 1 loops at
least once into `new_track_format_1` since `ntracks ≥ 2`, and format 2
loops at least once into `new_track_format_2` since `ntracks ≥ 1`; so the
run always aborts with the panic message "not yet implemented" and never
produces a track list. -/
theorem main_always_panics (fmt nt tc fps sub : Nat) (hfmt : fmt < 3)
    (h1 : fmt = 1 → 2 ≤ nt ∧ nt < 26) (h2 : fmt = 2 → 1 ≤ nt ∧ nt < 26)
    (htc : tc < 2) (hfps : fps < 4) (hsub : sub < 5) :
    main_run fmt nt tc fps sub = Except.error "not yet implemented" := by
  obtain ⟨v, hv⟩ := ntracksFor_ok_of_lt fmt nt hfmt
  obtain ⟨w, hw⟩ := tickdivExtraBits_ok_of_lt tc fps sub htc hfps hsub
  rw [main_run_eq fmt nt tc fps sub v w hv hw]
  apply generateTracks_error
  · show fmt = 1 → 2 ≤ v
    intro hf1
    have hr := h1 hf1
    rcases ntracksFor_ok_inv fmt nt v hv with ⟨hf, hv'⟩ | ⟨hf, hv'⟩ | ⟨hf, hv'⟩ <;> omega
  · show fmt ≠ 0 → fmt ≠ 1 → 1 ≤ v
    intro hf0 hf1
    have hf2 : fmt = 2 := by omega
    have hr := h2 hf2
    rcases ntracksFor_ok_inv fmt nt v hv with ⟨hf, hv'⟩ | ⟨hf, hv'⟩ | ⟨hf, hv'⟩ <;> omega

/-- Witness for C2 at the concrete draws (2, 1, 0, 0, 0): a format-2 file
with one track. -/
theorem main_always_panics_witness :
    main_run 2 1 0 0 0 = Except.error "not yet implemented" :=
  main_always_panics 2 1 0 0 0 (by decide) (fun h => absurd h (by decide))
    (fun _ => ⟨by decide, by decide⟩) (by decide) (by decide) (by decide)

end MIDIGenerator
